import Mathlib

/-
  Verification of the mystery-shopper audit agent
  (source: src/agent.py and src/server.py).

  The embedding translates the Python source into Lean:
  stateful code becomes explicit state passing, machine floats on
  normalized coordinates become exact rationals, fallible calls become
  Except values, and the asyncio select loop of the progress stream
  bridge becomes a recursion over an arrival schedule.
-/

namespace MysteryShopper

/-! ## Progress messages (src/agent.py, the `self.log` calls)

Each distinct `await self.log(...)` format string in agent.py is one
constructor; the interpolated parts are the constructor arguments.
`render` gives the exact Python string. -/

inductive Msg where
  | startRun (url : String)
  | capturing (url : String)
  | urlObtained (u : String)
  | firecrawlError (e : String)
  | captureFailed
  | analyzing
  | drawing
  | generatingPdf
  | annotError (e : String)
  | reportDone (path : String)
deriving DecidableEq

def Msg.render : Msg → String
  | .startRun url => "🚀 Starting analysis for: " ++ url
  | .capturing url => "📸 Capturing screenshot of " ++ url ++ "..."
  | .urlObtained u => "🔗 Screenshot URL obtained: " ++ u
  | .firecrawlError e => "❌ Firecrawl Error: " ++ e
  | .captureFailed => "❌ Failed to capture screenshot."
  | .analyzing => "🧠 Analyzing image with Gemini Vision..."
  | .drawing => "🎨 Drawing annotations on image..."
  | .generatingPdf => "📄 Generating PDF Report..."
  | .annotError e => "❌ Gemini/Annotation Error: " ++ e
  | .reportDone path => "✅ Report generated: " ++ path

/-! ## Server-sent events (src/server.py, progress_generator yields) -/

inductive SSEEvent where
  | progress (message : Msg)
  | complete (report_url : String)
  | error (message : String)
deriving DecidableEq

/-- `os.path.basename` as used in src/server.py line 71 on the /tmp path:
the segment after the last slash. -/
def basename (path : String) : String :=
  ((path.splitOn "/").getLast?).getD path

/-- src/server.py lines 68-76: derivation of the terminal event from the
finished task result. `.ok (some path)` is a truthy run result, `.ok none`
a falsy one, `.error e` an exception re-raised by `task.result()`. -/
def terminalEvent (outcome : Except String (Option String)) : SSEEvent :=
  match outcome with
  | .ok (some path) => .complete ("api/download/" ++ basename path)
  | .ok none => .error "Analysis failed"
  | .error e => .error e

/-! ## The progress stream bridge (src/server.py, progress_generator)

The asyncio drain loop: per iteration the generator either yields the
head of the queue, or — with an empty queue and the pipeline task still
running — suspends until a burst of new messages arrives. `sched` chooses
each burst size (at least one message arrives per wake while the task
runs, since the task only finishes after its last put); once `sched`
is exhausted all remaining messages arrive and the task completes.
`remaining` are messages the pipeline has not yet put; the pipeline
puts every message before it returns, so the terminal outcome is only
observable once `remaining` is empty. -/

def bridgeRun (queue remaining : List Msg) (term : SSEEvent) (sched : List Nat) :
    List SSEEvent :=
  match queue with
  | m :: q => SSEEvent.progress m :: bridgeRun q remaining term sched
  | [] =>
    match remaining with
    | [] => [term]
    | r0 :: rs =>
      match sched with
      | [] => (r0 :: rs).map SSEEvent.progress ++ [term]
      | n :: rest =>
        bridgeRun ((r0 :: rs).take (n + 1)) ((r0 :: rs).drop (n + 1)) term rest
termination_by (sched.length, queue.length)
decreasing_by
  · exact Prod.Lex.right _ (Nat.lt_succ_self _)
  · exact Prod.Lex.left _ _ (Nat.lt_succ_self _)

/-- src/server.py lines 29-79: the generator first constructs the agent
(`init`); on a construction exception it yields a single error event and
returns. Otherwise it runs the bridge loop over the messages the agent
task emits and finishes with the terminal event for the task outcome. -/
def progress_generator (init : Except String Unit) (msgs : List Msg)
    (outcome : Except String (Option String)) (sched : List Nat) : List SSEEvent :=
  match init with
  | .error e => [.error e]
  | .ok _ => bridgeRun [] msgs (terminalEvent outcome) sched

lemma bridgeRun_eq (queue remaining : List Msg) (term : SSEEvent) (sched : List Nat) :
    bridgeRun queue remaining term sched =
      queue.map SSEEvent.progress ++ remaining.map SSEEvent.progress ++ [term] := by
  induction queue, remaining, term, sched using bridgeRun.induct with
  | case1 m q remaining term sched ih =>
    rw [bridgeRun, ih]; simp
  | case2 term sched => rw [bridgeRun]; simp
  | case3 term r0 rs => rw [bridgeRun]; simp
  | case4 term r0 rs n rest ih =>
    rw [bridgeRun, ih, ← List.map_append, List.take_append_drop]
    simp

/-- Claim C1: every progress message emitted by the pipeline before its
terminal outcome appears in the bridge output in emission order, followed
by exactly one terminal event derived from the outcome (complete with an
artifact reference, or error with a reason), with no message dropped,
duplicated, or delivered after the terminal event, for every arrival
schedule. -/
theorem bridge_ordering (msgs : List Msg) (outcome : Except String (Option String))
    (sched : List Nat) :
    progress_generator (.ok ()) msgs outcome sched
        = msgs.map SSEEvent.progress ++ [terminalEvent outcome]
      ∧ ((∃ u, terminalEvent outcome = SSEEvent.complete u)
          ∨ (∃ e, terminalEvent outcome = SSEEvent.error e)) := by
  refine ⟨by simp [progress_generator, bridgeRun_eq], ?_⟩
  match outcome with
  | .ok (some path) => exact Or.inl ⟨_, rfl⟩
  | .ok none => exact Or.inr ⟨_, rfl⟩
  | .error e => exact Or.inr ⟨_, rfl⟩

/-! ## Findings (src/agent.py, the JSON items in full_response)

One parsed JSON annotation item. A field is `none` when the key is
absent. Coordinate lists model the JSON number arrays with exact
rationals in place of Python floats; Python unpacking demands exact
arity and is modelled by the arity match in `renderFinding`. -/

structure Finding where
  id : Option Int := none
  text : Option String := none
  title : Option String := none
  description : Option String := none
  recommendation : Option String := none
  label_pos : Option (List ℚ) := none
  target_pos : Option (List ℚ) := none
deriving DecidableEq

/-- The parsed `full_response` JSON object (src/agent.py lines 166-168):
an optional executive summary and the annotation list (default empty). -/
structure FullData where
  executive_summary : Option String := none
  annotations : List Finding := []
deriving DecidableEq

/-- Python truthiness of `item.get(...)` for a JSON array value: falsy
when the key is absent or the array is empty (src/agent.py line 189,
`if label_box and target:`). -/
def truthy : Option (List ℚ) → Bool
  | some (_ :: _) => true
  | _ => false

/-- Python `str.upper`. -/
def pyUpper (s : String) : String := s.map Char.toUpper

/-! ## Coordinate mapper (src/agent.py lines 195-203) -/

/-- `(normalized / 1000) * dimension`, the pixel conversion applied to
every coordinate (src/agent.py lines 196-200). -/
def mapCoord (c d : ℚ) : ℚ := (c / 1000) * d

/-- `((cmin + cmax) / 2000) * dimension`, the label-box center used as
the pointer-line origin (src/agent.py lines 202-203). -/
def centerCoord (cmin cmax d : ℚ) : ℚ := ((cmin + cmax) / 2000) * d

/-! ## Drawing commands

The PIL draw calls are an external sink; each call is recorded as one
command with the exact arguments the source passes. -/

inductive DrawOp where
  | line (x1 y1 x2 y2 : ℚ) (fill : String) (w : Nat)
  | ellipse (x1 y1 x2 y2 : ℚ) (fill : String)
  | rect (x1 y1 x2 y2 : ℚ) (fill outline : String) (w : Nat)
  | label (x y : ℚ) (s : String) (fill : String)
deriving DecidableEq

/-- Modelled from the drawing library (an external sink per the spec):
`draw.textbbox((x, y), s, font)` for the default bitmap font — a box
anchored at `(x, y)`; the exact glyph metrics do not matter to any
claim, only that the box is a 4-tuple (always truthy in Python, so the
`if bbox:` guard at src/agent.py line 218 always passes). -/
def textbbox (x y : ℚ) (s : String) : ℚ × ℚ × ℚ × ℚ :=
  (x, y, x + 6 * s.length, y + 11)

/-- src/agent.py lines 185-223: the body of the per-finding loop. A falsy
`label_pos` or `target_pos` skips the finding (the `if` guard); a truthy
value with the wrong arity raises at the tuple unpacking, modelled as
`Except.error`. Otherwise the six draw calls are emitted in source
order. -/
def renderFinding (width height : ℚ) (item : Finding) : Except String (List DrawOp) :=
  let text := pyUpper (item.text.getD "")
  if truthy item.label_pos && truthy item.target_pos then
    match item.label_pos.getD [], item.target_pos.getD [] with
    | [l_ymin, l_xmin, l_ymax, l_xmax], [t_y, t_x] =>
      let lx := mapCoord l_xmin width
      let ly := mapCoord l_ymin height
      let tx := mapCoord t_x width
      let ty := mapCoord t_y height
      let lcx := centerCoord l_xmin l_xmax width
      let lcy := centerCoord l_ymin l_ymax height
      let r : ℚ := 10
      let bbox := textbbox lx ly text
      let pad : ℚ := 5
      .ok [ .line lcx lcy tx ty "black" 6,
            .line lcx lcy tx ty "#FFD700" 4,
            .ellipse (tx - r - 2) (ty - r - 2) (tx + r + 2) (ty + r + 2) "black",
            .ellipse (tx - r) (ty - r) (tx + r) (ty + r) "#FFD700",
            .rect (bbox.1 - pad) (bbox.2.1 - pad) (bbox.2.2.1 + pad) (bbox.2.2.2 + pad)
              "#FFD700" "black" 2,
            .label lx ly text "black" ]
    | _, _ => .error "ValueError: cannot unpack coordinates"
  else
    .ok []

/-- src/agent.py lines 185-223: the `for item in analysis_data:` loop.
There is no per-item exception handler in the source, so the first
raising item aborts the whole pass (the error propagates to the
handler at line 229). -/
def drawAll (width height : ℚ) (items : List Finding) : Except String (List DrawOp) :=
  match items with
  | [] => .ok []
  | item :: rest => do
    let ops ← renderFinding width height item
    let more ← drawAll width height rest
    pure (ops ++ more)

/-! ## Images and buffers -/

/-- A decoded PIL image: pixel dimensions, mode, an opaque base pixel
content, and the overlays drawn onto it so far. -/
structure RasterImage where
  width : Nat
  height : Nat
  mode : String
  content : Nat
  overlays : List DrawOp
deriving DecidableEq

/-- An in-memory byte buffer: either an encoded image or bytes that the
image decoder rejects. -/
inductive Buffer where
  | png (img : RasterImage)
  | junk (payload : Nat)
deriving DecidableEq

/-- `Image.open(io.BytesIO(image_bytes))` (src/agent.py line 111):
decoding fails on non-image bytes and the exception reaches the handler
at line 229. -/
def decode : Buffer → Except String RasterImage
  | .png img => .ok img
  | .junk _ => .error "cannot identify image file"

/-- `img.save(output_buffer, format=PNG)` (src/agent.py lines 225-227). -/
def encode (img : RasterImage) : Buffer := .png img

/-- `img.convert(RGB)` (src/agent.py line 113): a new image, same
dimensions and content, RGB mode. -/
def convertRGB (img : RasterImage) : RasterImage := { img with mode := "RGB" }

def bufferDims : Buffer → Option (Nat × Nat)
  | .png img => some (img.width, img.height)
  | .junk _ => none

def bufferOverlays : Buffer → List DrawOp
  | .png img => img.overlays
  | .junk _ => []

/-! ## The drawing pass as explicit state

During the loop of src/agent.py lines 185-223 two buffers are live: the
`image_bytes` argument and the decoded working image `img` that
`ImageDraw.Draw(img, RGBA)` mutates in place. Each draw call targets the
working image only. -/

structure RenderState where
  input : Buffer
  working : RasterImage
deriving DecidableEq

/-- One PIL draw call: mutates the working image in place. -/
def applyOp (s : RenderState) (op : DrawOp) : RenderState :=
  { s with working := { s.working with overlays := s.working.overlays ++ [op] } }

/-- The sequence of draw calls issued by the loop. -/
def drawSteps (s : RenderState) (ops : List DrawOp) : RenderState :=
  ops.foldl applyOp s

/-- The empty dict `{}` returned by the handler at src/agent.py line 231:
`.get` on it yields the defaults everywhere it is read. -/
def emptyData : FullData := {}

/-! ## Analysis and annotation stage (src/agent.py, analyze_and_annotate)

`response` stands for the Gemini call followed by `json.loads`: an
exception from either (request failure or malformed structured output)
is `Except.error`. The single `try` of the source spans decoding,
the model call, the parse and the whole drawing loop; every error path
lands in the handler at lines 229-231, which logs and returns
`{}, image_bytes`. The returned triple is (log messages in emission
order, full_response as seen by the caller, annotated bytes). -/
def analyze_and_annotate (image_bytes : Buffer) (response : Except String FullData) :
    List Msg × FullData × Buffer :=
  match decode image_bytes with
  | .error e => ([.analyzing, .annotError e], emptyData, image_bytes)
  | .ok img0 =>
    let img := if img0.mode ≠ "RGB" then convertRGB img0 else img0
    match response with
    | .error e => ([.analyzing, .annotError e], emptyData, image_bytes)
    | .ok full_response =>
      match drawAll (img.width : ℚ) (img.height : ℚ) full_response.annotations with
      | .error e => ([.analyzing, .drawing, .annotError e], emptyData, image_bytes)
      | .ok ops =>
        let final := drawSteps { input := image_bytes, working := img } ops
        ([.analyzing, .drawing], full_response, encode final.working)

/-! ## Report assembly (src/agent.py, create_pdf_report)

The FPDF calls are an external sink; the model records the text the
source lays out. The latin-1 replace re-encoding is an encoding-library
detail and is the identity on the ASCII defaults the claims mention. -/

structure ReportItem where
  uid : Option Int
  title : String
  description : String
  recommendation : String
deriving DecidableEq

structure Report where
  title : String
  urlLine : String
  summary : String
  items : List ReportItem
  image : Buffer
deriving DecidableEq

/-- src/agent.py lines 233-287. -/
def create_pdf_report (url : String) (full_data : FullData) (image_bytes : Buffer) :
    Report :=
  { title := "Conversion Audit Report"
    urlLine := "Analysis for: " ++ url
    summary := full_data.executive_summary.getD "No summary available."
    items := full_data.annotations.map (fun item =>
      { uid := item.id
        title := ((item.text).orElse (fun _ => item.title)).getD "Issue"
        description := item.description.getD ""
        recommendation := item.recommendation.getD "No specific recommendation." })
    image := image_bytes }

/-! ## Capture stage (src/agent.py, get_screenshot)

`scrape` stands for the Firecrawl call: `.error e` a raised exception,
`.ok none` a result without a screenshot URL, `.ok (some u)` a URL.
`status` and `body` stand for `requests.get(screenshot_url)`. -/

def noScreenshotUrl : String := "Failed to get screenshot URL from Firecrawl."

def downloadFailedReason (status : Nat) : String :=
  "Failed to download image. Status: " ++ toString status

/-- src/agent.py lines 69-103: logs the capture start, then either the
obtained URL plus the downloaded bytes (HTTP 200), or a Firecrawl error
log and `None`. -/
def get_screenshot (url : String) (scrape : Except String (Option String))
    (status : Nat) (body : Buffer) : List Msg × Option Buffer :=
  match scrape with
  | .error e => ([.capturing url, .firecrawlError e], none)
  | .ok none => ([.capturing url, .firecrawlError noScreenshotUrl], none)
  | .ok (some u) =>
    if status = 200 then
      ([.capturing url, .urlObtained u], some body)
    else
      ([.capturing url, .urlObtained u,
        .firecrawlError (downloadFailedReason status)], none)

/-- The /tmp report path built at src/agent.py line 60, with
`tempfile.gettempdir()` = /tmp and `int(time.time())` = `ts`. -/
def reportPath (ts : Nat) : String :=
  "/tmp/audit_report_" ++ toString ts ++ ".pdf"

/-- src/agent.py lines 45-67: the pipeline. Returns the log in emission
order, the run result (`some` report path or `None`), and the assembled
report artifact when one was written. -/
def run (url : String) (scrape : Except String (Option String)) (status : Nat)
    (body : Buffer) (response : Except String FullData) (ts : Nat) :
    List Msg × Option String × Option Report :=
  let cap := get_screenshot url scrape status body
  match cap.2 with
  | none => (Msg.startRun url :: cap.1 ++ [.captureFailed], none, none)
  | some image_bytes =>
    let a := analyze_and_annotate image_bytes response
    let report := create_pdf_report url a.2.1 a.2.2
    (Msg.startRun url :: cap.1 ++ a.1 ++ [.generatingPdf, .reportDone (reportPath ts)],
      some (reportPath ts), some report)

/-! ## Agent construction (src/agent.py, ProductionAgent.__init__) -/

/-- Python truthiness of `os.getenv`: falsy when unset or empty. -/
def truthyStr : Option String → Bool
  | none => false
  | some s => !s.isEmpty

def missingKeysMsg : String :=
  "❌ Error: Missing API Keys. Please set FIRECRAWL_API_KEY and GOOGLE_API_KEY in Vercel Environment Variables."

/-- src/agent.py lines 18-35: a missing key raises ValueError with
`missingKeysMsg`; otherwise a client-construction exception `e` raises
ValueError with the wrapped message. -/
def agentInit (firecrawl_key google_key : Option String)
    (clients : Except String Unit) : Except String Unit :=
  if !truthyStr firecrawl_key || !truthyStr google_key then
    .error missingKeysMsg
  else
    match clients with
    | .error e => .error ("❌ Error initializing AI clients: " ++ e)
    | .ok _ => .ok ()

/-! ## Substring test, used to state claims about message content -/

def leadMatch : List Char → List Char → Bool
  | _, [] => true
  | [], _ :: _ => false
  | c :: cs, d :: ds => c = d && leadMatch cs ds

def hasSub : List Char → List Char → Bool
  | [], needle => leadMatch [] needle
  | c :: cs, needle => leadMatch (c :: cs) needle || hasSub cs needle

/-- `needle in hay` on Python strings. -/
def containsSub (hay needle : String) : Bool := hasSub hay.data needle.data

/-! ## Stage predicates on log messages -/

def isCapturingMsg : Msg → Bool
  | .capturing _ => true
  | _ => false

def isAnalyzingMsg : Msg → Bool
  | .analyzing => true
  | _ => false

def isDrawingMsg : Msg → Bool
  | .drawing => true
  | _ => false

def isPdfMsg : Msg → Bool
  | .generatingPdf => true
  | _ => false

def isProgressEvent : SSEEvent → Bool
  | .progress _ => true
  | _ => false

/-! ## Helper lemmas -/

lemma drawSteps_input (s : RenderState) (ops : List DrawOp) :
    (drawSteps s ops).input = s.input := by
  induction ops generalizing s with
  | nil => rfl
  | cons op rest ih =>
    show (drawSteps (applyOp s op) rest).input = s.input
    rw [ih (applyOp s op)]
    rfl

lemma drawSteps_width (s : RenderState) (ops : List DrawOp) :
    (drawSteps s ops).working.width = s.working.width := by
  induction ops generalizing s with
  | nil => rfl
  | cons op rest ih =>
    show (drawSteps (applyOp s op) rest).working.width = s.working.width
    rw [ih (applyOp s op)]
    rfl

lemma drawSteps_height (s : RenderState) (ops : List DrawOp) :
    (drawSteps s ops).working.height = s.working.height := by
  induction ops generalizing s with
  | nil => rfl
  | cons op rest ih =>
    show (drawSteps (applyOp s op) rest).working.height = s.working.height
    rw [ih (applyOp s op)]
    rfl

/-! ## Claims about the coordinate mapper and renderer -/

/-- Claim C5: for every normalized coordinate c in [0, 1000] and every
pixel dimension d > 0, the coordinate mapper produces exactly
(c / 1000) * d. -/
theorem mapper_exact (c d : ℚ) (_hc0 : 0 ≤ c) (_hc1 : c ≤ 1000) (_hd : 0 < d) :
    mapCoord c d = c / 1000 * d := rfl

theorem mapper_exact_witness :
    (0 : ℚ) ≤ 500 ∧ (500 : ℚ) ≤ 1000 ∧ (0 : ℚ) < 64
      ∧ mapCoord 500 64 = 500 / 1000 * 64 :=
  ⟨by norm_num, by norm_num, by norm_num,
    mapper_exact 500 64 (by norm_num) (by norm_num) (by norm_num)⟩

/-- Claim C9: the pointer-line origin is the label-box center, computed
as the midpoint of the min/max pair independently on each axis:
pixel center x = ((xmin + xmax) / 2 / 1000) * W and
pixel center y = ((ymin + ymax) / 2 / 1000) * H, and the rendered
draw commands for a finding start the two pointer lines at exactly
that point. -/
theorem box_center_midpoint (W H ymin xmin ymax xmax y x : ℚ) (i : Option Int)
    (txt ttl ds rc : Option String) :
    centerCoord xmin xmax W = (xmin + xmax) / 2 / 1000 * W
    ∧ centerCoord ymin ymax H = (ymin + ymax) / 2 / 1000 * H
    ∧ renderFinding W H
        { id := i, text := txt, title := ttl, description := ds, recommendation := rc,
          label_pos := some [ymin, xmin, ymax, xmax], target_pos := some [y, x] }
      = .ok [ .line (centerCoord xmin xmax W) (centerCoord ymin ymax H)
                (mapCoord x W) (mapCoord y H) "black" 6,
              .line (centerCoord xmin xmax W) (centerCoord ymin ymax H)
                (mapCoord x W) (mapCoord y H) "#FFD700" 4,
              .ellipse (mapCoord x W - 10 - 2) (mapCoord y H - 10 - 2)
                (mapCoord x W + 10 + 2) (mapCoord y H + 10 + 2) "black",
              .ellipse (mapCoord x W - 10) (mapCoord y H - 10)
                (mapCoord x W + 10) (mapCoord y H + 10) "#FFD700",
              .rect (mapCoord xmin W - 5) (mapCoord ymin H - 5)
                (mapCoord xmin W + 6 * (pyUpper (txt.getD "")).length + 5)
                (mapCoord ymin H + 11 + 5) "#FFD700" "black" 2,
              .label (mapCoord xmin W) (mapCoord ymin H) (pyUpper (txt.getD "")) "black" ] := by
  refine ⟨?_, ?_, rfl⟩
  · unfold centerCoord; ring
  · unfold centerCoord; ring

/-- Claim C6 is false on the code: the renderer does not clamp
out-of-range coordinates. A target point with y = 1500 on a 100-pixel
high canvas is drawn at pixel y = 150, outside the canvas, whereas
clamping the normalized value into [0, 1000] would give pixel y = 100. -/
theorem no_clamping_counterexample :
    renderFinding 800 100
        { text := some "T", label_pos := some [0, 0, 10, 10], target_pos := some [1500, 400] }
      = .ok [ .line (centerCoord 0 10 800) (centerCoord 0 10 100)
                (mapCoord 400 800) (mapCoord 1500 100) "black" 6,
              .line (centerCoord 0 10 800) (centerCoord 0 10 100)
                (mapCoord 400 800) (mapCoord 1500 100) "#FFD700" 4,
              .ellipse (mapCoord 400 800 - 10 - 2) (mapCoord 1500 100 - 10 - 2)
                (mapCoord 400 800 + 10 + 2) (mapCoord 1500 100 + 10 + 2) "black",
              .ellipse (mapCoord 400 800 - 10) (mapCoord 1500 100 - 10)
                (mapCoord 400 800 + 10) (mapCoord 1500 100 + 10) "#FFD700",
              .rect (mapCoord 0 800 - 5) (mapCoord 0 100 - 5)
                (mapCoord 0 800 + 6 * (pyUpper "T").length + 5)
                (mapCoord 0 100 + 11 + 5) "#FFD700" "black" 2,
              .label (mapCoord 0 800) (mapCoord 0 100) (pyUpper "T") "black" ]
    ∧ mapCoord 1500 100 = 150
    ∧ ¬ (150 : ℚ) ≤ 100
    ∧ mapCoord (min 1500 1000) 100 = 100 := by
  refine ⟨rfl, by norm_num [mapCoord], by norm_num, ?_⟩
  rw [show min (1500 : ℚ) 1000 = 1000 by norm_num]
  norm_num [mapCoord]

/-- Claim C6 (amended): the renderer neither clamps nor rejects
out-of-range coordinate values. A finding whose target y exceeds 1000 is
still fully rendered, through the same linear formula, at a pixel
position beyond the canvas height; clipping is left to the drawing
library. -/
theorem no_clamping (W H a b c d y x : ℚ) (i : Option Int)
    (txt ttl ds rc : Option String) (hy : 1000 < y) (hH : 0 < H) :
    renderFinding W H
        { id := i, text := txt, title := ttl, description := ds, recommendation := rc,
          label_pos := some [a, b, c, d], target_pos := some [y, x] }
      = .ok [ .line (centerCoord b d W) (centerCoord a c H)
                (mapCoord x W) (mapCoord y H) "black" 6,
              .line (centerCoord b d W) (centerCoord a c H)
                (mapCoord x W) (mapCoord y H) "#FFD700" 4,
              .ellipse (mapCoord x W - 10 - 2) (mapCoord y H - 10 - 2)
                (mapCoord x W + 10 + 2) (mapCoord y H + 10 + 2) "black",
              .ellipse (mapCoord x W - 10) (mapCoord y H - 10)
                (mapCoord x W + 10) (mapCoord y H + 10) "#FFD700",
              .rect (mapCoord b W - 5) (mapCoord a H - 5)
                (mapCoord b W + 6 * (pyUpper (txt.getD "")).length + 5)
                (mapCoord a H + 11 + 5) "#FFD700" "black" 2,
              .label (mapCoord b W) (mapCoord a H) (pyUpper (txt.getD "")) "black" ]
    ∧ H < mapCoord y H := by
  refine ⟨rfl, ?_⟩
  have h1 : (1 : ℚ) < y / 1000 := by
    rw [lt_div_iff₀ (by norm_num : (0 : ℚ) < 1000)]; linarith
  calc H = 1 * H := (one_mul H).symm
    _ < (y / 1000) * H := by exact mul_lt_mul_of_pos_right h1 hH

theorem no_clamping_witness :
    (1000 : ℚ) < 1500 ∧ (0 : ℚ) < 100
      ∧ (100 : ℚ) < mapCoord 1500 100 :=
  ⟨by norm_num, by norm_num,
    (no_clamping 800 100 0 0 10 10 1500 400 none (some "T") none none none
      (by norm_num) (by norm_num)).2⟩

/-- Claim C2 is false on the code: the drawing loop has no per-finding
exception handler, so one malformed finding (here a label box with three
values) aborts the whole annotation pass. The well-formed finding before
it would render six draw commands on its own, but the returned buffer is
the untouched original with no overlays at all. -/
theorem per_finding_failure_aborts :
    analyze_and_annotate (Buffer.png ⟨800, 600, "RGB", 7, []⟩)
        (.ok { executive_summary := some "s",
               annotations :=
                 [ { text := some "FIX", label_pos := some [0, 0, 100, 100],
                     target_pos := some [500, 500] },
                   { label_pos := some [1, 2, 3], target_pos := some [5, 5] } ] })
      = ([.analyzing, .drawing, .annotError "ValueError: cannot unpack coordinates"],
         emptyData, Buffer.png ⟨800, 600, "RGB", 7, []⟩)
    ∧ (∃ ops, renderFinding 800 600
          { text := some "FIX", label_pos := some [0, 0, 100, 100],
            target_pos := some [500, 500] } = .ok ops ∧ ops.length = 6) := by
  exact ⟨rfl, ⟨_, rfl, rfl⟩⟩

/-- Claim C2 (amended): a finding with an absent or empty label box or
target point is skipped and the remaining findings still render, and a
finding whose box and point have the correct arity never fails, whatever
its values (including out-of-range ones such as y = 1500); but a finding
with a present box or point of the wrong arity raises at the tuple
unpacking, and since the loop has no per-finding handler this aborts the
whole annotation pass. -/
theorem missing_fields_skipped (W H : ℚ) (item : Finding) (rest : List Finding)
    (h : (truthy item.label_pos && truthy item.target_pos) = false) :
    drawAll W H (item :: rest) = drawAll W H rest
    ∧ ∀ (it : Finding) (a b c d y x : ℚ), it.label_pos = some [a, b, c, d] →
        it.target_pos = some [y, x] → ∃ ops, renderFinding W H it = .ok ops := by
  constructor
  · have hr : renderFinding W H item = .ok [] := by
      unfold renderFinding
      simp [h]
    have hcons : drawAll W H (item :: rest)
        = (renderFinding W H item) >>= (fun ops =>
            (drawAll W H rest) >>= (fun more => pure (ops ++ more))) := rfl
    rw [hcons, hr]
    cases hd : drawAll W H rest with
    | error e => rfl
    | ok more => rfl
  · intro it a b c d y x h1 h2
    simp only [renderFinding, h1, h2, truthy, Option.getD_some, Bool.and_self, if_true]
    exact ⟨_, rfl⟩

theorem missing_fields_skipped_witness :
    drawAll 800 600 [{ }] = drawAll 800 600 [] :=
  (missing_fields_skipped 800 600 { } [] (by decide)).1

/-- Claim C7: the annotation pass never mutates the input image buffer —
every draw call targets the decoded working copy, so after any sequence
of draw calls the input buffer of the render state is unchanged and the
working image keeps its dimensions — and for every input buffer and
every analysis response the annotated output buffer of
analyze_and_annotate has exactly the dimensions of the input buffer. -/
theorem renderer_preserves_input_and_dims (s : RenderState) (ops : List DrawOp)
    (buf : Buffer) (resp : Except String FullData) :
    (drawSteps s ops).input = s.input
    ∧ (drawSteps s ops).working.width = s.working.width
    ∧ (drawSteps s ops).working.height = s.working.height
    ∧ bufferDims (analyze_and_annotate buf resp).2.2 = bufferDims buf := by
  refine ⟨drawSteps_input s ops, drawSteps_width s ops, drawSteps_height s ops, ?_⟩
  cases buf with
  | junk p => rfl
  | png img =>
    cases resp with
    | error e => rfl
    | ok fd =>
      simp only [analyze_and_annotate, decode]
      cases hd : drawAll (((if img.mode ≠ "RGB" then convertRGB img else img).width : ℚ))
          (((if img.mode ≠ "RGB" then convertRGB img else img).height : ℚ)) fd.annotations with
      | error e => rfl
      | ok ops2 =>
        simp only [encode, bufferDims, drawSteps_width, drawSteps_height]
        by_cases hm : img.mode ≠ "RGB" <;> simp [hm, convertRGB]

/-- Claim C8: on a run where every stage executes, each of the four
stages (capture, analyze, render, assemble) emits exactly one progress
message describing the action starting, and emits it before performing
that stage's work: in the emitted log, the capture-start message
precedes the message reporting the obtained screenshot URL, the
analyze-start message precedes the render-start message, and the
assemble-start message precedes the message reporting the written
report. -/
theorem stage_start_messages (url u : String) (img : RasterImage)
    (hmode : img.mode = "RGB") (fd : FullData) (ops : List DrawOp) (ts : Nat)
    (hdraw : drawAll (img.width : ℚ) (img.height : ℚ) fd.annotations = .ok ops) :
    (run url (.ok (some u)) 200 (.png img) (.ok fd) ts).1
      = [.startRun url, .capturing url, .urlObtained u, .analyzing, .drawing,
         .generatingPdf, .reportDone (reportPath ts)]
    ∧ (run url (.ok (some u)) 200 (.png img) (.ok fd) ts).1.countP isCapturingMsg = 1
    ∧ (run url (.ok (some u)) 200 (.png img) (.ok fd) ts).1.countP isAnalyzingMsg = 1
    ∧ (run url (.ok (some u)) 200 (.png img) (.ok fd) ts).1.countP isDrawingMsg = 1
    ∧ (run url (.ok (some u)) 200 (.png img) (.ok fd) ts).1.countP isPdfMsg = 1 := by
  have hlog : (run url (.ok (some u)) 200 (.png img) (.ok fd) ts).1
      = [.startRun url, .capturing url, .urlObtained u, .analyzing, .drawing,
         .generatingPdf, .reportDone (reportPath ts)] := by
    simp [run, get_screenshot, analyze_and_annotate, decode, hmode, hdraw]
  refine ⟨hlog, ?_, ?_, ?_, ?_⟩ <;>
    simp [hlog, List.countP_cons, isCapturingMsg, isAnalyzingMsg, isDrawingMsg, isPdfMsg]

theorem stage_start_messages_witness :
    (run "x.com" (.ok (some "img.png")) 200 (.png ⟨8, 6, "RGB", 0, []⟩) (.ok {}) 5).1
      = [.startRun "x.com", .capturing "x.com", .urlObtained "img.png", .analyzing,
         .drawing, .generatingPdf, .reportDone (reportPath 5)] :=
  (stage_start_messages "x.com" "img.png" ⟨8, 6, "RGB", 0, []⟩ rfl {} [] 5 rfl).1

/-- Claim C3 is false on the code as far as the error message is
concerned: when the screenshot download returns HTTP 404, the run ends
with the single terminal event `error` carrying the generic message
"Analysis failed", which does not contain the capture failure reason;
the reason only appears in an earlier progress message. -/
theorem capture_reason_not_in_error_counterexample :
    progress_generator (.ok ())
        (run "x.com" (.ok (some "img.png")) 404 (.junk 0) (.ok {}) 5).1
        (.ok (run "x.com" (.ok (some "img.png")) 404 (.junk 0) (.ok {}) 5).2.1) []
      = [ .progress (.startRun "x.com"), .progress (.capturing "x.com"),
          .progress (.urlObtained "img.png"),
          .progress (.firecrawlError (downloadFailedReason 404)),
          .progress (.captureFailed),
          .error "Analysis failed" ]
    ∧ containsSub "Analysis failed" (downloadFailedReason 404) = false := by
  constructor
  · simp only [progress_generator]
    rw [bridgeRun_eq]
    rfl
  · decide

/-- Claim C3 (amended): when screenshot capture fails (scrape exception,
missing screenshot URL, or non-200 download), the run result is `None`,
the run ends with exactly one terminal error event whose message is the
generic "Analysis failed" — the capture failure reason appears in a
preceding progress message, not in the terminal event — and no
analysis, rendering, or assembly stage runs after the failure (their
start messages never appear in the log). -/
theorem capture_failure_aborts (url : String) (scrape : Except String (Option String))
    (status : Nat) (body : Buffer) (response : Except String FullData) (ts : Nat)
    (sched : List Nat)
    (h : (get_screenshot url scrape status body).2 = none) :
    (run url scrape status body response ts).2.1 = none
    ∧ (∃ r, Msg.firecrawlError r ∈ (run url scrape status body response ts).1)
    ∧ (run url scrape status body response ts).1.countP isAnalyzingMsg = 0
    ∧ (run url scrape status body response ts).1.countP isDrawingMsg = 0
    ∧ (run url scrape status body response ts).1.countP isPdfMsg = 0
    ∧ progress_generator (.ok ()) (run url scrape status body response ts).1
        (.ok (run url scrape status body response ts).2.1) sched
      = (run url scrape status body response ts).1.map SSEEvent.progress
          ++ [.error "Analysis failed"] := by
  have hrun : run url scrape status body response ts
      = (Msg.startRun url :: (get_screenshot url scrape status body).1
          ++ [.captureFailed], none, none) := by
    simp only [run, h]
  have hcap : ∃ r, (get_screenshot url scrape status body).1
      = [Msg.capturing url, Msg.firecrawlError r]
      ∨ (get_screenshot url scrape status body).1
      = [Msg.capturing url, Msg.urlObtained r, Msg.firecrawlError (downloadFailedReason status)] := by
    cases scrape with
    | error e => exact ⟨e, Or.inl rfl⟩
    | ok o =>
      cases o with
      | none => exact ⟨noScreenshotUrl, Or.inl rfl⟩
      | some u =>
        refine ⟨u, Or.inr ?_⟩
        unfold get_screenshot
        have hs : ¬ status = 200 := by
          intro hs
          rw [get_screenshot, hs] at h
          simp at h
        simp [hs]
  obtain ⟨r, hcap⟩ := hcap
  have hterm : progress_generator (.ok ()) (run url scrape status body response ts).1
      (.ok (run url scrape status body response ts).2.1) sched
      = (run url scrape status body response ts).1.map SSEEvent.progress
        ++ [.error "Analysis failed"] := by
    simp only [progress_generator]
    rw [bridgeRun_eq, hrun]
    rfl
  cases hcap with
  | inl hc =>
    rw [hrun, hc]
    refine ⟨rfl, ⟨r, by simp⟩, ?_, ?_, ?_, by rw [← hc, ← hrun]; exact hterm⟩ <;>
      simp [List.countP_cons, isAnalyzingMsg, isDrawingMsg, isPdfMsg]
  | inr hc =>
    rw [hrun, hc]
    refine ⟨rfl, ⟨downloadFailedReason status, by simp⟩, ?_, ?_, ?_,
        by rw [← hc, ← hrun]; exact hterm⟩ <;>
      simp [List.countP_cons, isAnalyzingMsg, isDrawingMsg, isPdfMsg]

theorem capture_failure_aborts_witness :
    (run "x.com" (.ok (some "img.png")) 404 (.junk 0) (.ok {}) 5).2.1 = none :=
  (capture_failure_aborts "x.com" (.ok (some "img.png")) 404 (.junk 0) (.ok {}) 5 []
    (by rfl)).1

/-- Claim C4: when the vision model returns malformed structured output
(the parse raises), the failure is soft: the pipeline still produces a
report and the stream ends in a complete terminal event; the artifact's
narrative section carries the default placeholder "No summary
available." and the annotated image carries zero overlays (it is the
untouched captured image, whose overlay list starts empty). -/
theorem malformed_output_soft_failure (url u e : String) (img : RasterImage)
    (hov : img.overlays = []) (ts : Nat) (sched : List Nat) :
    (run url (.ok (some u)) 200 (.png img) (.error e) ts).2.1 = some (reportPath ts)
    ∧ (∃ rep, (run url (.ok (some u)) 200 (.png img) (.error e) ts).2.2 = some rep
        ∧ rep.summary = "No summary available."
        ∧ bufferOverlays rep.image = []
        ∧ rep.items = [])
    ∧ progress_generator (.ok ()) (run url (.ok (some u)) 200 (.png img) (.error e) ts).1
        (.ok (run url (.ok (some u)) 200 (.png img) (.error e) ts).2.1) sched
      = (run url (.ok (some u)) 200 (.png img) (.error e) ts).1.map SSEEvent.progress
          ++ [.complete ("api/download/" ++ basename (reportPath ts))] := by
  have hrun : run url (.ok (some u)) 200 (.png img) (.error e) ts
      = ([.startRun url, .capturing url, .urlObtained u, .analyzing, .annotError e,
          .generatingPdf, .reportDone (reportPath ts)],
         some (reportPath ts),
         some { title := "Conversion Audit Report"
                urlLine := "Analysis for: " ++ url
                summary := "No summary available."
                items := []
                image := .png img }) := rfl
  rw [hrun]
  refine ⟨rfl, ⟨_, rfl, rfl, by simp [bufferOverlays, hov], rfl⟩, ?_⟩
  simp only [progress_generator]
  rw [bridgeRun_eq]
  rfl

theorem malformed_output_soft_failure_witness :
    (run "x.com" (.ok (some "img.png")) 200 (.png ⟨8, 6, "RGB", 0, []⟩)
        (.error "Expecting value") 5).2.1 = some (reportPath 5) :=
  (malformed_output_soft_failure "x.com" "img.png" "Expecting value"
    ⟨8, 6, "RGB", 0, []⟩ rfl 5 []).1

/-- Claim C10: if either required API key is missing (unset or empty) at
agent construction, the constructor raises with the missing-keys message
and the progress stream emits exactly one error event containing that
message, then terminates — independently of any pipeline messages or
outcome, so no pipeline stage starts. -/
theorem missing_keys_single_error (fk gk : Option String)
    (clients : Except String Unit) (msgs : List Msg)
    (outcome : Except String (Option String)) (sched : List Nat)
    (h : truthyStr fk = false ∨ truthyStr gk = false) :
    progress_generator (agentInit fk gk clients) msgs outcome sched
        = [.error missingKeysMsg]
    ∧ containsSub missingKeysMsg "Missing API Keys" = true
    ∧ ([SSEEvent.error missingKeysMsg] : List SSEEvent).countP isProgressEvent = 0 := by
  have hinit : agentInit fk gk clients = .error missingKeysMsg := by
    unfold agentInit
    rcases h with h | h <;> simp [h]
  exact ⟨by rw [hinit]; rfl, by decide, by decide⟩

theorem missing_keys_single_error_witness :
    progress_generator (agentInit none (some "g") (.ok ())) [] (.ok none) []
      = [.error missingKeysMsg] :=
  (missing_keys_single_error none (some "g") (.ok ()) [] (.ok none) [] (Or.inl rfl)).1

end MysteryShopper
